import Mathlib

/-!
Verification of the caseta_listener event-translation and dispatch engine.

This file gives a shallow embedding, in Lean 4, of the core of the
caseta_listener daemon: the protocol codec (src/caseta/message.rs), the
gesture-recognizer state machine and watcher loop (src/caseta/remote.rs),
the connection manager read path (src/caseta/connection.rs), and the
dispatcher (src/client/dispatcher.rs) together with its room-state cache
(src/client/room_state.rs) and configuration types (src/config).

Modelling conventions:
  - Rust machine integers (u8, usize) are modelled as Nat; where wrap-around
    matters (usize subtraction in release builds) the wrap is written
    explicitly modulo 2 ^ 64.
  - f32 brightness values are modelled as exact rationals; the arithmetic the
    code performs (division by 5, trunc, +-1, min/max with literals) is exact
    on the values of interest, so the rational model is the idealized
    semantics the spec states.
  - Rust panics (expect / unwrap / index out of bounds) are modelled as
    explicit outcomes, kept distinct from ordinary error returns where a
    claim depends on the difference.
  - Stateful async code (the watcher loop) is modelled as a function of the
    sequence of states it observes at its timer ticks; wall-clock instants
    are modelled as milliseconds since tracking started.
-/

deriving instance DecidableEq for Except

namespace CasetaListener

/-- Remote identifier, a u8 on the wire (src/config/caseta_remote.rs). -/
abbrev RemoteId := Nat

/-- Button identifiers of a five-button pico remote
(src/config/caseta_remote.rs, enum ButtonId). -/
inductive ButtonId where
  | powerOn
  | up
  | favorite
  | down
  | powerOff
deriving DecidableEq

/-- Press or release of a button (src/config/caseta_remote.rs, enum ButtonAction). -/
inductive ButtonAction where
  | press
  | release
deriving DecidableEq

/-- Frames produced by the protocol codec (src/caseta/message.rs, enum Message). -/
inductive Message where
  | buttonEvent (remote_id : RemoteId) (button_id : ButtonId) (button_action : ButtonAction)
  | loggedIn
  | loginPrompt
  | passwordPrompt
deriving DecidableEq

/-- Wire decoding of a button id (src/caseta/message.rs and
src/config/caseta_remote.rs, TryFrom of u8 for ButtonId); the Err case of the
Rust TryFrom is modelled as none. -/
def ButtonId.fromWireId : Nat → Option ButtonId
  | 2 => some .powerOn
  | 5 => some .up
  | 3 => some .favorite
  | 6 => some .down
  | 4 => some .powerOff
  | _ => none

/-- Wire decoding of a button action (TryFrom of u8 for ButtonAction);
the Err case is modelled as none. -/
def ButtonAction.fromWireId : Nat → Option ButtonAction
  | 3 => some .press
  | 4 => some .release
  | _ => none

/-- Rust str::starts_with, computed on the underlying character lists (the
library String.startsWith does not reduce inside the kernel). -/
def startsWithChars (s pre : String) : Bool :=
  pre.data.isPrefixOf s.data

/-- Rust str::trim: strip leading and trailing whitespace characters. -/
def trimChars (l : List Char) : List Char :=
  ((l.dropWhile Char.isWhitespace).reverse.dropWhile Char.isWhitespace).reverse

/-- Helper of splitComma carrying the current field in reverse. -/
def splitCommaAux : List Char → List Char → List (List Char)
  | [], acc => [acc.reverse]
  | c :: rest, acc =>
    if c = ',' then acc.reverse :: splitCommaAux rest []
    else splitCommaAux rest (c :: acc)

/-- Rust str::split on a comma, collected: the comma-separated fields of the
line, always at least one. -/
def splitComma (l : List Char) : List (List Char) := splitCommaAux l []

/-- Rust str::parse to u8: an optional leading plus sign followed by one or
more ASCII digits, value at most 255; every other string is an Err,
modelled as none. -/
def parseUnsignedByte (l : List Char) : Option Nat :=
  let t := match l with
    | c :: rest => if c = '+' then rest else l
    | [] => l
  if t.isEmpty then none
  else if t.all Char.isDigit then
    let n := t.foldl (fun acc c => acc * 10 + (c.toNat - 48)) 0
    if n ≤ 255 then some n else none
  else none

/-- Outcome of Message::from_str: a parsed message, an ordinary Err, or a
panic raised by one of the expect calls or by an out-of-bounds index. -/
inductive ParseOutcome where
  | ok (m : Message)
  | err (e : String)
  | panicked (e : String)
deriving DecidableEq

/-- Message::from_str (src/caseta/message.rs, lines 19 to 41). The Rust code
indexes parts[1] through parts[3] (panics when fewer fields are present),
calls parse::<u8>().expect(...) on each field (panics on a non-integer), and
calls try_into().expect(...) on the button id and action id (panics on an
unrecognized value). All of these panics are modelled with the panicked
constructor; only the no-prefix-matches case is an ordinary Err. -/
def Message.fromStr (s : String) : ParseOutcome :=
  if startsWithChars s "login: " then .ok .loginPrompt
  else if startsWithChars s "password: " then .ok .passwordPrompt
  else if startsWithChars s "GNET>" then .ok .loggedIn
  else if startsWithChars s "~DEVICE" then
    let parts := splitComma (trimChars s.data)
    match parts.get? 1 with
    | none => .panicked "index out of bounds"
    | some p1 =>
      match parseUnsignedByte p1 with
      | none => .panicked ("only integer values are allowed here, but got " ++ String.mk p1)
      | some remote_id =>
        match parts.get? 2 with
        | none => .panicked "index out of bounds"
        | some p2 =>
          match parseUnsignedByte p2 with
          | none => .panicked ("only integer values are allowed here, but got " ++ String.mk p2)
          | some raw_button_id =>
            match parts.get? 3 with
            | none => .panicked "index out of bounds"
            | some p3 =>
              match parseUnsignedByte p3 with
              | none => .panicked ("only integers are allowed, but got " ++ String.mk p3)
              | some raw_action_id =>
                match ButtonId.fromWireId raw_button_id with
                | none => .panicked "got an invalid button ID"
                | some button_id =>
                  match ButtonAction.fromWireId raw_action_id with
                  | none => .panicked "got an invalid button action ID"
                  | some button_action =>
                    .ok (.buttonEvent remote_id button_id button_action)
  else .err ("got an un-parseable message: " ++ s)

/-- Gesture states of the recognizer (src/caseta/remote.rs, enum ButtonState). -/
inductive ButtonState where
  | firstPressAwaitingRelease
  | firstPressAndFirstRelease
  | secondPressAwaitingRelease
  | secondPressAndSecondRelease
deriving DecidableEq

/-- ButtonState::next_button_state (src/caseta/remote.rs, lines 140 to 148). -/
def ButtonState.nextButtonState : ButtonState → ButtonState
  | .firstPressAwaitingRelease => .firstPressAndFirstRelease
  | .firstPressAndFirstRelease => .secondPressAwaitingRelease
  | .secondPressAwaitingRelease => .secondPressAndSecondRelease
  | .secondPressAndSecondRelease => .secondPressAndSecondRelease

/-- RemoteHistory (src/caseta/remote.rs). The tracking_started_at Instant is
not stored; functions that need it take the elapsed time in milliseconds as
an argument. -/
structure RemoteHistory where
  button_id : ButtonId
  button_state : Option ButtonState
  finished : Bool
deriving DecidableEq

/-- RemoteHistory::increment (src/caseta/remote.rs, lines 74 to 116): events
for a different button are ignored; from the absent state a press starts the
gesture and a release is dropped; exactly the three tabulated transitions
advance the state, every other pair is a no-op. -/
def RemoteHistory.increment (h : RemoteHistory) (button_id : ButtonId)
    (button_action : ButtonAction) : RemoteHistory :=
  if button_id ≠ h.button_id then h
  else
    match h.button_state with
    | none =>
      match button_action with
      | .press => { h with button_state := some .firstPressAwaitingRelease }
      | .release => h
    | some current =>
      match current, button_action with
      | .firstPressAwaitingRelease, .release => { h with button_state := some current.nextButtonState }
      | .firstPressAndFirstRelease, .press => { h with button_state := some current.nextButtonState }
      | .secondPressAwaitingRelease, .release => { h with button_state := some current.nextButtonState }
      | _, _ => h

/-- Modelled from the spec: the ingest transition table of section 4.3,
written exactly as the spec tabulates it, for comparison with the
implementation RemoteHistory.increment. -/
def ingestSpecTable (B : ButtonId) (st : Option ButtonState) (b : ButtonId)
    (a : ButtonAction) : Option ButtonState :=
  if b ≠ B then st
  else
    match st, a with
    | none, .press => some .firstPressAwaitingRelease
    | none, .release => none
    | some .firstPressAwaitingRelease, .release => some .firstPressAndFirstRelease
    | some .firstPressAndFirstRelease, .press => some .secondPressAwaitingRelease
    | some .secondPressAwaitingRelease, .release => some .secondPressAndSecondRelease
    | some s, _ => some s

/-- Semantic gestures emitted by the recognizer
(src/client/dispatcher.rs, enum DeviceAction). -/
inductive DeviceAction where
  | singlePressComplete
  | doublePressComplete
  | longPressStart
  | longPressOngoing
  | longPressComplete
deriving DecidableEq

/-- DeviceActionMessage (src/client/dispatcher.rs). -/
structure DeviceActionMessage where
  device_action : DeviceAction
  remote_id : RemoteId
  button_id : ButtonId
deriving DecidableEq

/-- Finished check shared by RemoteHistory::is_finished and the watcher loop:
the finished flag, or at least 5000 ms elapsed since tracking started
(REMOTE_WATCHER_LOOP_MAXIMUM_DURATION, src/caseta/remote.rs line 19). -/
def isFinishedFlag (finished : Bool) (elapsedMs : Nat) : Bool :=
  finished || decide (5000 ≤ elapsedMs)

/-- RemoteHistory::is_finished (src/caseta/remote.rs, lines 118 to 123),
with the elapsed tracking time passed in milliseconds. -/
def RemoteHistory.isFinished (h : RemoteHistory) (elapsedMs : Nat) : Bool :=
  isFinishedFlag h.finished elapsedMs

/-- First lock-read of remote_watcher_loop, 500 ms after tracking started
(src/caseta/remote.rs, lines 159 to 202): the pair is the value
device_action_message takes and whether the finished flag is set.
A none observed state is the warn-and-continue branch. -/
def firstPassEval : Option ButtonState → Option DeviceAction × Bool
  | none => (none, false)
  | some .firstPressAwaitingRelease => (none, false)
  | some .firstPressAndFirstRelease => (some .singlePressComplete, true)
  | some .secondPressAwaitingRelease => (none, false)
  | some .secondPressAndSecondRelease => (some .doublePressComplete, true)

/-- One iteration of the polling loop of remote_watcher_loop
(src/caseta/remote.rs, lines 215 to 271). The stale argument is the value
device_action_message still holds from the previous iteration: the Rust loop
never resets that variable, so the SecondPressAwaitingRelease branch leaves
it unchanged and the send below the match re-sends it. -/
def loopTickEval (stale : Option DeviceAction) :
    ButtonState → Option DeviceAction × Bool
  | .firstPressAndFirstRelease => (some .longPressComplete, true)
  | .firstPressAwaitingRelease => (some .longPressOngoing, false)
  | .secondPressAwaitingRelease => (stale, false)
  | .secondPressAndSecondRelease => (some .doublePressComplete, true)

/-- The send below the match in remote_watcher_loop: when
device_action_message holds a message it goes onto the channel; the emission
is recorded tagged with its time t. -/
def appendEmission (acc : List (Nat × DeviceAction)) (t : Nat) :
    Option DeviceAction → List (Nat × DeviceAction)
  | some m => acc ++ [(t, m)]
  | none => acc

/-- Fuelled unrolling of the polling loop of remote_watcher_loop. The
iteration counter n starts at 1; iteration n runs 500 * (n + 1) ms after
tracking started (each iteration begins with a 500 ms sleep, after the 500 ms
double-click window). obs n is the button state the iteration reads under the
lock (the loop expects it to be set, so it is total here). The result is the
list of emitted messages tagged with their emission times, with the time the
task returns; none means the fuel ran out before the loop finished. -/
def watcherLoopAux (obs : Nat → ButtonState) :
    Nat → Nat → Option DeviceAction → List (Nat × DeviceAction) →
      Option (List (Nat × DeviceAction) × Nat)
  | 0, _, _, _ => none
  | fuel + 1, n, stale, acc =>
    if isFinishedFlag (loopTickEval stale (obs n)).2 (500 * (n + 1)) then
      some (appendEmission acc (500 * (n + 1)) (loopTickEval stale (obs n)).1, 500 * (n + 1))
    else
      watcherLoopAux obs fuel (n + 1) (loopTickEval stale (obs n)).1
        (appendEmission acc (500 * (n + 1)) (loopTickEval stale (obs n)).1)

/-- remote_watcher_loop (src/caseta/remote.rs, lines 152 to 272) as a
function of the observed states: obs0 is the state read at the first pass
(500 ms), obs n the state read by polling iteration n at 500 * (n + 1) ms.
The fuel 9 covers iterations 1 through 9; iteration 9 runs at 5000 ms, where
is_finished is true by the absolute deadline, so the loop always ends. -/
def watcherRun (obs0 : Option ButtonState) (obs : Nat → ButtonState) :
    Option (List (Nat × DeviceAction) × Nat) :=
  if isFinishedFlag (firstPassEval obs0).2 500 then
    some (appendEmission [] 500 (firstPassEval obs0).1, 500)
  else
    watcherLoopAux obs 9 1 (firstPassEval obs0).1 (appendEmission [] 500 (firstPassEval obs0).1)

/-- BRIGHTNESS_UPDATE_AMOUNT (src/client/dispatcher.rs line 15). -/
def BRIGHTNESS_UPDATE_AMOUNT : ℚ := 5

/-- MAXIMUM_BRIGHTNESS_PERCENT (src/client/dispatcher.rs line 16). -/
def MAXIMUM_BRIGHTNESS_PERCENT : ℚ := 100

/-- MINIMUM_BRIGHTNESS_PERCENT (src/client/dispatcher.rs line 17). -/
def MINIMUM_BRIGHTNESS_PERCENT : ℚ := 1

/-- f32::trunc modelled on exact rationals: round toward zero. -/
def rustTruncQ (q : ℚ) : ℚ :=
  if 0 ≤ q then (⌊q⌋ : ℚ) else (⌈q⌉ : ℚ)

/-- DeviceActionDispatcher::get_bounded_next_higher_brightness_val
(src/client/dispatcher.rs, lines 116 to 120). -/
def getBoundedNextHigherBrightnessVal (current_value : ℚ) : ℚ :=
  let quotient := rustTruncQ (current_value / BRIGHTNESS_UPDATE_AMOUNT)
  let next_higher_value := BRIGHTNESS_UPDATE_AMOUNT * (quotient + 1)
  min MAXIMUM_BRIGHTNESS_PERCENT next_higher_value

/-- DeviceActionDispatcher::get_bounded_next_lower_brightness_val
(src/client/dispatcher.rs, lines 122 to 126). -/
def getBoundedNextLowerBrightnessVal (current_value : ℚ) : ℚ :=
  let quotient := rustTruncQ (current_value / BRIGHTNESS_UPDATE_AMOUNT)
  let next_lower_value := BRIGHTNESS_UPDATE_AMOUNT * (quotient - 1)
  max MINIMUM_BRIGHTNESS_PERCENT next_lower_value

/-- Modelled from the spec: clamp(min, max, x) from section 4.6. -/
def clampQ (lo hi x : ℚ) : ℚ := max lo (min hi x)

/-- Opaque UUIDs of the configuration and of the lighting API, modelled as
naturals; only identity matters to the core. -/
abbrev Uuid := Nat

/-- Device (src/config/scene.rs, enum Device). -/
inductive Device where
  | hueScene (id : Uuid) (name : String)
  | nanoleafLightPanels (name : String) («on» : Bool) (effect : String)
  | wemoOutlet (name : String) («on» : Bool)
deriving DecidableEq

/-- Scene (src/config/scene.rs). -/
structure Scene where
  name : String
  devices : List Device
deriving DecidableEq

/-- Room (src/config/scene.rs). -/
structure Room where
  name : String
  room_id : Uuid
  grouped_light_room_id : Uuid
  scenes : List Scene
  remotes : List RemoteId
deriving DecidableEq

/-- CasetaRemote (src/config/caseta_remote.rs). -/
inductive CasetaRemote where
  | twoButtonPico (id : RemoteId) (name : String)
  | fiveButtonPico (id : RemoteId) (name : String)
deriving DecidableEq

/-- Topology = HashMap of RemoteId to (CasetaRemote, Room)
(src/config/scene.rs line 12), modelled as an association list with unique
keys looked up by topologyGet. -/
abbrev Topology := List (RemoteId × CasetaRemote × Room)

/-- HashMap::get on the topology. -/
def topologyGet (t : Topology) (r : RemoteId) : Option (CasetaRemote × Room) :=
  (t.find? (fun e => e.1 == r)).map (fun e => e.2)

/-- CurrentRoomState (src/client/room_state.rs). -/
structure CurrentRoomState where
  scene : Option Scene
  brightness : Option ℚ
  «on» : Bool
deriving DecidableEq

/-- The on field of a grouped light (src/client/model/hue.rs, LightGroupOn). -/
structure GroupedLightOn where
  «on» : Bool
deriving DecidableEq

/-- The dimming field of a grouped light
(src/client/model/hue.rs, LightGroupDimming). -/
structure GroupedLightDimming where
  brightness : ℚ
deriving DecidableEq

/-- The grouped light payload the dispatcher reads: a value with on.on and
dimming.brightness, matching LightGroupData in src/client/model/hue.rs
(the GroupedLight type itself is referenced by the dispatcher but its
definition is not among the sources; only these two fields are used). -/
structure GroupedLight where
  «on» : GroupedLightOn
  dimming : GroupedLightDimming
deriving DecidableEq

/-- HueResponse (src/client/model/hue.rs): the data array of a response.
The errors array is never read by the dispatcher and is omitted. -/
structure HueResponse where
  data : List GroupedLight
deriving DecidableEq

/-- CurrentRoomStateCache (src/client/room_state.rs), a mini_moka cache from
room id to CurrentRoomState, modelled as an association list; TTL expiry is
not modelled (no claim depends on it). -/
abbrev Cache := List (Uuid × CurrentRoomState)

/-- Cache::get, returning a snapshot copy. -/
def cacheGet (c : Cache) (k : Uuid) : Option CurrentRoomState :=
  (c.find? (fun e => e.1 == k)).map (fun e => e.2)

/-- Cache::insert, replacing any entry with the same key. -/
def cacheInsert (c : Cache) (k : Uuid) (v : CurrentRoomState) : Cache :=
  (k, v) :: c.filter (fun e => !(e.1 == k))

/-- One HTTP request issued through the HueClient
(src/client/hue.rs; turn_on is called by the dispatcher). -/
inductive HueCall where
  | getGroupedLight (id : Uuid)
  | turnOn (id : Uuid)
  | turnOff (id : Uuid)
  | updateBrightness (id : Uuid) (b : ℚ)
  | recallScene (id : Uuid) (b : ℚ)
deriving DecidableEq

/-- Responses of the lighting API, one per HueClient operation; an error
models a transport failure or a non-2xx status (src/client/hue.rs bails on
those). turn_on returns a grouped light response, as the dispatcher feeds its
result to build_cache_entry; its body is not among the sources. -/
structure HueOracle where
  getGroupedLight : Uuid → Except String HueResponse
  turnOn : Uuid → Except String HueResponse
  turnOff : Uuid → Except String Unit
  updateBrightness : Uuid → ℚ → Except String Unit
  recallScene : Uuid → ℚ → Except String Unit

/-- Result of handling one DeviceActionMessage: the Ok-or-error outcome
(panics are errors whose text starts with the word panic), the cache after
the handler ran, and the HTTP calls it issued in order. -/
structure DispatchResult where
  result : Except String Unit
  cache : Cache
  calls : List HueCall
deriving DecidableEq

/-- DeviceActionDispatcher::build_cache_entry (src/client/dispatcher.rs,
lines 92 to 105): reads the first grouped light of the response (expect
panics when the data array is empty); when the light is on the brightness is
kept, otherwise it is absent. -/
def buildCacheEntry (scene : Option Scene) (resp : HueResponse) :
    Except String CurrentRoomState :=
  match resp.data.head? with
  | none => .error "panic: there should be a single grouped light in this response"
  | some grouped_light =>
    .ok ⟨scene,
      if grouped_light.«on».«on» then some grouped_light.dimming.brightness else none,
      grouped_light.«on».«on»⟩

/-- DeviceActionDispatcher::get_current_state (src/client/dispatcher.rs,
lines 67 to 86): a cache hit is returned as is; on a miss the code first
evaluates room.scenes.first().expect(...) (a panic when the scene list is
empty, the binding itself is unused), then fetches the grouped light and
builds a fresh entry with scene = None. The cache is never written here. The
second component lists the HTTP calls made. -/
def getCurrentState (o : HueOracle) (cache : Cache) (room : Room) :
    Except String CurrentRoomState × List HueCall :=
  match cacheGet cache room.room_id with
  | some entry => (.ok entry, [])
  | none =>
    match room.scenes.head? with
    | none => (.error "panic: configurations must have at least one scene", [])
    | some _first_scene =>
      match o.getGroupedLight room.grouped_light_room_id with
      | .error e => (.error e, [.getGroupedLight room.grouped_light_room_id])
      | .ok resp => (buildCacheEntry none resp, [.getGroupedLight room.grouped_light_room_id])

/-- DeviceActionDispatcher::handle_power_on_button_press
(src/client/dispatcher.rs, lines 128 to 167). -/
def handlePowerOnButtonPress (o : HueOracle) (topo : Topology) (cache : Cache)
    (m : DeviceActionMessage) : DispatchResult :=
  if m.button_id = ButtonId.powerOn then
    match topologyGet topo m.remote_id with
    | none => ⟨.error "panic: no configuration present for remote", cache, []⟩
    | some (remote, room) =>
      match remote with
      | .twoButtonPico _ _ => ⟨.error "we have not implemented 2 button picos yet", cache, []⟩
      | .fiveButtonPico _ _ =>
        match getCurrentState o cache room with
        | (.error e, calls) => ⟨.error e, cache, calls⟩
        | (.ok current_room_state, calls) =>
          match m.device_action with
          | .singlePressComplete =>
            if !current_room_state.«on» then
              match o.turnOn room.grouped_light_room_id with
              | .error e => ⟨.error e, cache, calls ++ [.turnOn room.grouped_light_room_id]⟩
              | .ok current_light_status =>
                match buildCacheEntry current_room_state.scene current_light_status with
                | .error e => ⟨.error e, cache, calls ++ [.turnOn room.grouped_light_room_id]⟩
                | .ok entry =>
                  ⟨.ok (), cacheInsert cache room.room_id entry,
                    calls ++ [.turnOn room.grouped_light_room_id]⟩
            else ⟨.ok (), cache, calls⟩
          | _ => ⟨.ok (), cache, calls⟩
  else ⟨.error "ensure failed: the message button must be PowerOn", cache, []⟩

/-- DeviceActionDispatcher::handle_power_off_button_press
(src/client/dispatcher.rs, lines 169 to 190): the three terminal gestures
call turn_off and cache the prior state with only the on flag cleared; the
two long-press progress gestures do nothing. -/
def handlePowerOffButtonPress (o : HueOracle) (topo : Topology) (cache : Cache)
    (m : DeviceActionMessage) : DispatchResult :=
  if m.button_id = ButtonId.powerOff then
    match topologyGet topo m.remote_id with
    | none => ⟨.error "panic: no configuration present for remote", cache, []⟩
    | some (remote, room) =>
      match remote with
      | .twoButtonPico _ _ => ⟨.error "two button picos are not supported yet", cache, []⟩
      | .fiveButtonPico _ _ =>
        match getCurrentState o cache room with
        | (.error e, calls) => ⟨.error e, cache, calls⟩
        | (.ok current_room_state, calls) =>
          match m.device_action with
          | .singlePressComplete | .doublePressComplete | .longPressComplete =>
            match o.turnOff room.grouped_light_room_id with
            | .error e => ⟨.error e, cache, calls ++ [.turnOff room.grouped_light_room_id]⟩
            | .ok _ =>
              ⟨.ok (), cacheInsert cache room.room_id { current_room_state with «on» := false },
                calls ++ [.turnOff room.grouped_light_room_id]⟩
          | .longPressStart | .longPressOngoing => ⟨.ok (), cache, calls⟩
  else ⟨.error "ensure failed: the message button must be PowerOff", cache, []⟩

/-- Tail of handle_brightness_change_button_press once the target brightness
is fixed (src/client/dispatcher.rs, lines 267 to 273): call
update_brightness, propagate its error, otherwise cache the state with the
new brightness. -/
def finishBrightnessUpdate (o : HueOracle) (cache : Cache) (room : Room)
    (current_room_state : CurrentRoomState) (target_brightness : ℚ)
    (calls : List HueCall) : DispatchResult :=
  match o.updateBrightness room.grouped_light_room_id target_brightness with
  | .error e =>
    ⟨.error e, cache, calls ++ [.updateBrightness room.grouped_light_room_id target_brightness]⟩
  | .ok _ =>
    ⟨.ok (),
      cacheInsert cache room.room_id { current_room_state with brightness := some target_brightness },
      calls ++ [.updateBrightness room.grouped_light_room_id target_brightness]⟩

/-- DeviceActionDispatcher::handle_brightness_change_button_press
(src/client/dispatcher.rs, lines 232 to 274): single press and long-press
progress apply the step once, a double press twice, a long-press completion
leaves the value; update_brightness is then called unconditionally through
finishBrightnessUpdate. -/
def handleBrightnessChangeButtonPress (o : HueOracle) (cache : Cache) (room : Room)
    (current_room_state : CurrentRoomState) (m : DeviceActionMessage)
    (update_fn : ℚ → ℚ) (calls : List HueCall) : DispatchResult :=
  if !current_room_state.«on» then ⟨.ok (), cache, calls⟩
  else
    match current_room_state.brightness with
    | none => ⟨.error "panic: room is on, but its brightness is not specified", cache, calls⟩
    | some b =>
      match m.device_action with
      | .singlePressComplete | .longPressStart | .longPressOngoing =>
        finishBrightnessUpdate o cache room current_room_state (update_fn b) calls
      | .doublePressComplete =>
        finishBrightnessUpdate o cache room current_room_state (update_fn (update_fn b)) calls
      | .longPressComplete =>
        finishBrightnessUpdate o cache room current_room_state b calls

/-- DeviceActionDispatcher::handle_up_button_press
(src/client/dispatcher.rs, lines 192 to 210); no remote-kind check here. -/
def handleUpButtonPress (o : HueOracle) (topo : Topology) (cache : Cache)
    (m : DeviceActionMessage) : DispatchResult :=
  if m.button_id = ButtonId.up then
    match topologyGet topo m.remote_id with
    | none => ⟨.error "panic: no configuration present for remote", cache, []⟩
    | some (_remote, room) =>
      match getCurrentState o cache room with
      | (.error e, calls) => ⟨.error e, cache, calls⟩
      | (.ok current_room_state, calls) =>
        if !current_room_state.«on» then ⟨.ok (), cache, calls⟩
        else
          handleBrightnessChangeButtonPress o cache room current_room_state m
            getBoundedNextHigherBrightnessVal calls
  else ⟨.error "ensure failed: the message button must be Up", cache, []⟩

/-- DeviceActionDispatcher::handle_down_button_press
(src/client/dispatcher.rs, lines 212 to 230). -/
def handleDownButtonPress (o : HueOracle) (topo : Topology) (cache : Cache)
    (m : DeviceActionMessage) : DispatchResult :=
  if m.button_id = ButtonId.down then
    match topologyGet topo m.remote_id with
    | none => ⟨.error "panic: no configuration present for remote", cache, []⟩
    | some (_remote, room) =>
      match getCurrentState o cache room with
      | (.error e, calls) => ⟨.error e, cache, calls⟩
      | (.ok current_room_state, calls) =>
        if !current_room_state.«on» then ⟨.ok (), cache, calls⟩
        else
          handleBrightnessChangeButtonPress o cache room current_room_state m
            getBoundedNextLowerBrightnessVal calls
  else ⟨.error "ensure failed: the message button must be Down", cache, []⟩

/-- DeviceActionDispatcher::get_scene_index (src/client/dispatcher.rs,
lines 327 to 338): position of the scene with the same name; none models the
expect panic when the scene is not in the configuration. -/
def getSceneIndex (room : Room) (current_scene : Scene) : Option Nat :=
  room.scenes.findIdx? (fun scene => scene.name == current_scene.name)

/-- Wrap-around modulus of usize arithmetic on a 64-bit target. -/
def USIZE_MOD : Nat := 2 ^ 64

/-- Index computed by get_next_scene: (position + 1) % scene_count. -/
def getNextSceneIndex (position scene_count : Nat) : Nat :=
  (position + 1) % scene_count

/-- Index computed by get_previous_scene (src/client/dispatcher.rs,
lines 346 to 350): the Rust expression (position - 1) % scene_count
subtracts on usize, so for position = 0 a release build wraps to
2 ^ 64 - 1 before the modulus (a debug build panics on the underflow);
the wrap is written here as addition of 2 ^ 64 - 1 modulo 2 ^ 64. -/
def getPreviousSceneIndex (position scene_count : Nat) : Nat :=
  ((position + (USIZE_MOD - 1)) % USIZE_MOD) % scene_count

/-- Modelled from the spec: target index of a double press in section 4.6,
(i - 1) mod N using the Euclidean modulo. -/
def specPreviousSceneIndex (i N : Nat) : Nat :=
  (((i : ℤ) - 1).emod N).toNat

/-- DeviceActionDispatcher::get_next_scene (src/client/dispatcher.rs,
lines 340 to 344); errors model the expect and unwrap panics. -/
def getNextScene (room : Room) (current_scene : Scene) : Except String Scene :=
  match getSceneIndex room current_scene with
  | none => .error "panic: scene should be present in configuration, but it was not"
  | some position =>
    match room.scenes.get? (getNextSceneIndex position room.scenes.length) with
    | none => .error "panic: called unwrap on a None value"
    | some s => .ok s

/-- DeviceActionDispatcher::get_previous_scene (src/client/dispatcher.rs,
lines 346 to 350), with the usize wrap of getPreviousSceneIndex. -/
def getPreviousScene (room : Room) (current_scene : Scene) : Except String Scene :=
  match getSceneIndex room current_scene with
  | none => .error "panic: scene should be present in configuration, but it was not"
  | some position =>
    match room.scenes.get? (getPreviousSceneIndex position room.scenes.length) with
    | none => .error "panic: called unwrap on a None value"
    | some s => .ok s

/-- DeviceActionDispatcher::get_first_scene (src/client/dispatcher.rs,
lines 352 to 356). -/
def getFirstScene (room : Room) : Except String Scene :=
  match room.scenes.head? with
  | none => .error "panic: Rooms must be configured with at least one scene"
  | some s => .ok s

/-- The recall loop of handle_favorite_button_press (src/client/dispatcher.rs,
lines 312 to 320): one recall_scene call per HueScene device, in order,
stopping at the first failing call; other device kinds are skipped. Returns
the outcome and the calls issued. -/
def recallSceneDevices (o : HueOracle) (brightness : ℚ) :
    List Device → Except String Unit × List HueCall
  | [] => (.ok (), [])
  | d :: rest =>
    match d with
    | .hueScene id _name =>
      match o.recallScene id brightness with
      | .error e => (.error e, [.recallScene id brightness])
      | .ok _ =>
        let tail := recallSceneDevices o brightness rest
        (tail.1, .recallScene id brightness :: tail.2)
    | _ => recallSceneDevices o brightness rest

/-- Calls the recall loop issues for a scene when every call succeeds: one
recall_scene per HueScene device, in order. -/
def sceneRecallCalls (s : Scene) (b : ℚ) : List HueCall :=
  s.devices.filterMap (fun d =>
    match d with
    | .hueScene id _ => some (.recallScene id b)
    | _ => none)

/-- Tail of handle_favorite_button_press once the target scene is known:
run the recall loop, then cache the state with the active scene replaced. -/
def recallAndCache (o : HueOracle) (cache : Cache) (room : Room)
    (current_room_state : CurrentRoomState) (brightness : ℚ) (target : Scene)
    (calls : List HueCall) : DispatchResult :=
  match recallSceneDevices o brightness target.devices with
  | (.error e, recall_calls) => ⟨.error e, cache, calls ++ recall_calls⟩
  | (.ok _, recall_calls) =>
    ⟨.ok (),
      cacheInsert cache room.room_id { current_room_state with scene := some target },
      calls ++ recall_calls⟩

/-- DeviceActionDispatcher::handle_favorite_button_press
(src/client/dispatcher.rs, lines 276 to 325). When the cached state has no
active scene the target is the first scene of the room for every device
action (the action is only consulted when a current scene exists); with a
current scene, single press moves forward, double press uses
getPreviousScene, long-press completion returns to the first scene, and the
long-press progress actions return early with no effect. -/
def handleFavoriteButtonPress (o : HueOracle) (topo : Topology) (cache : Cache)
    (m : DeviceActionMessage) : DispatchResult :=
  if m.button_id = ButtonId.favorite then
    match topologyGet topo m.remote_id with
    | none => ⟨.error "panic: no configuration present for remote", cache, []⟩
    | some (remote, room) =>
      match remote with
      | .twoButtonPico _ _ => ⟨.error "two button picos do not have favorite buttons", cache, []⟩
      | .fiveButtonPico _ _ =>
        match getCurrentState o cache room with
        | (.error e, calls) => ⟨.error e, cache, calls⟩
        | (.ok current_room_state, calls) =>
          if !current_room_state.«on» then ⟨.ok (), cache, calls⟩
          else
            match current_room_state.brightness with
            | none =>
              ⟨.error "panic: rooms that are on must have a brightness value associated with them",
                cache, calls⟩
            | some brightness =>
              match current_room_state.scene with
              | none =>
                match getFirstScene room with
                | .error e => ⟨.error e, cache, calls⟩
                | .ok target =>
                  recallAndCache o cache room current_room_state brightness target calls
              | some current_scene =>
                match m.device_action with
                | .singlePressComplete =>
                  match getNextScene room current_scene with
                  | .error e => ⟨.error e, cache, calls⟩
                  | .ok target =>
                    recallAndCache o cache room current_room_state brightness target calls
                | .doublePressComplete =>
                  match getPreviousScene room current_scene with
                  | .error e => ⟨.error e, cache, calls⟩
                  | .ok target =>
                    recallAndCache o cache room current_room_state brightness target calls
                | .longPressComplete =>
                  match getFirstScene room with
                  | .error e => ⟨.error e, cache, calls⟩
                  | .ok target =>
                    recallAndCache o cache room current_room_state brightness target calls
                | .longPressStart | .longPressOngoing => ⟨.ok (), cache, calls⟩
  else ⟨.error "ensure failed: the message button must be Favorite", cache, []⟩

/-- The per-button dispatch of dispatcher_loop (src/client/dispatcher.rs,
lines 364 to 370): route the message to the handler for its button. The
debug-only get_grouped_light call after a single press (lines 372 to 384) is
outside the handlers and not part of the dispatch itself. -/
def handleMessage (o : HueOracle) (topo : Topology) (cache : Cache)
    (m : DeviceActionMessage) : DispatchResult :=
  match m.button_id with
  | .powerOn => handlePowerOnButtonPress o topo cache m
  | .up => handleUpButtonPress o topo cache m
  | .favorite => handleFavoriteButtonPress o topo cache m
  | .down => handleDownButtonPress o topo cache m
  | .powerOff => handlePowerOffButtonPress o topo cache m

/-- ConnectionManagerError (src/caseta/connection.rs, lines 75 to 85). -/
inductive ConnectionManagerError where
  | emptyMessageError
  | livenessError
  | recoverableError (e : String)
  | unrecoverableError (e : String)
deriving DecidableEq

/-- Outcome of one read_frame call: either a Result value or a propagated
panic from Message::from_str via the struct construction. -/
inductive ReadOutcome where
  | result (r : Except ConnectionManagerError (Option Message))
  | panicked (e : String)
deriving DecidableEq

/-- CasetaReadConnectionManager::read_frame (src/caseta/connection.rs,
lines 100 to 137), as a function of what the select observes: none models
the disconnect branch; some contents models a completed socket read that
placed contents in the fresh buffer (so the byte count is the length of
contents, and a zero-byte read leaves the buffer empty). UTF-8 decoding
cannot fail on the String model. A parsed message of any kind, LoggedIn
included, is returned to the caller; a from_str Err becomes an
UnrecoverableError; a from_str panic propagates. -/
def readFrame : Option String → ReadOutcome
  | none => .result (.error .livenessError)
  | some contents =>
    if contents.length = 0 then .result (.ok none)
    else
      match Message.fromStr contents with
      | .ok message => .result (.ok (some message))
      | .err e => .result (.error (.unrecoverableError
          ("got an unparsable message. message from Caseta cannot be parsed into a Message object: " ++ e)))
      | .panicked e => .panicked e

/-- DelegatingCasetaConnectionManager::await_message
(src/caseta/connection.rs, lines 436 to 470), as a function of the result the
underlying read connection produced. The Bool is whether the delegating
manager keeps its current read connection (false means it dropped it to
reconnect on the next call). An Ok Some message of any kind is passed through
to the caller unchanged; Ok None and LivenessError drop the connection and
surface LivenessError; every other error is wrapped as unrecoverable. -/
def delegatingAwaitMessage (underlying : Except ConnectionManagerError (Option Message)) :
    Except ConnectionManagerError (Option Message) × Bool :=
  match underlying with
  | .ok (some message) => (.ok (some message), true)
  | .ok none => (.error .livenessError, false)
  | .error .livenessError => (.error .livenessError, false)
  | .error _e => (.error (.unrecoverableError "encountered an unexpected and unrecoverable error"), true)

/-- Concrete configuration and state fixtures used by the closed theorems. -/
def sampleSceneA : Scene := ⟨"scene_a", [.hueScene 11 "scene_a_hue"]⟩

/-- Second scene of the two-scene room. -/
def sampleSceneB : Scene := ⟨"scene_b", [.hueScene 12 "scene_b_hue"]⟩

/-- Third scene of the three-scene room. -/
def sampleSceneC : Scene := ⟨"scene_c", [.hueScene 13 "scene_c_hue"]⟩

/-- Room with two scenes, controlled by remote 7. -/
def sampleRoom : Room := ⟨"living room", 100, 200, [sampleSceneA, sampleSceneB], [7]⟩

/-- Room with three scenes, controlled by remote 8. -/
def threeSceneRoom : Room := ⟨"den", 101, 201, [sampleSceneA, sampleSceneB, sampleSceneC], [8]⟩

/-- Topology mapping remotes 7 and 8 to five-button picos and their rooms. -/
def sampleTopology : Topology :=
  [(7, .fiveButtonPico 7 "living room pico", sampleRoom),
   (8, .fiveButtonPico 8 "den pico", threeSceneRoom)]

/-- Oracle whose calls all succeed; grouped-light reads report on at
brightness 70. -/
def happyOracle : HueOracle :=
  ⟨fun _ => .ok ⟨[⟨⟨true⟩, ⟨70⟩⟩]⟩,
   fun _ => .ok ⟨[⟨⟨true⟩, ⟨70⟩⟩]⟩,
   fun _ => .ok (),
   fun _ _ => .ok (),
   fun _ _ => .ok ()⟩

/-- Oracle whose calls all fail with an http 500 error. -/
def failingOracle : HueOracle :=
  ⟨fun _ => .error "http 500",
   fun _ => .error "http 500",
   fun _ => .error "http 500",
   fun _ _ => .error "http 500",
   fun _ _ => .error "http 500"⟩

/-- Cached state: on at brightness 50, scene_a active. -/
def priorOnState : CurrentRoomState := ⟨some sampleSceneA, some 50, true⟩

/-- Cache holding priorOnState for the two-scene room. -/
def cacheWithPrior : Cache := [(100, priorOnState)]

/-- Cached state: on at brightness 70, no active scene. -/
def noSceneOnState : CurrentRoomState := ⟨none, some 70, true⟩

/-- Cache holding noSceneOnState for the two-scene room. -/
def cacheNoScene : Cache := [(100, noSceneOnState)]

/-- Cached state: on at brightness 70, scene_a active. -/
def sceneAOnState : CurrentRoomState := ⟨some sampleSceneA, some 70, true⟩

/-- Cache holding sceneAOnState for the three-scene room. -/
def cacheThreeScene : Cache := [(101, sceneAOnState)]

/-- Single press completion of the PowerOff button on remote 7. -/
def powerOffSingleMsg : DeviceActionMessage := ⟨.singlePressComplete, 7, .powerOff⟩

/-- Long press start on the PowerOff button on remote 7. -/
def powerOffLongStartMsg : DeviceActionMessage := ⟨.longPressStart, 7, .powerOff⟩

/-- Single press completion of the Favorite button on remote 7. -/
def favoriteSingleMsg : DeviceActionMessage := ⟨.singlePressComplete, 7, .favorite⟩

/-- Double press completion of the Favorite button on remote 8. -/
def favoriteDoubleDenMsg : DeviceActionMessage := ⟨.doublePressComplete, 8, .favorite⟩

/-- Observed states of a watcher run in which a long press is ongoing at the
1000 ms tick, the 1500 ms tick reads SecondPressAwaitingRelease (release and
second press both landed between ticks), and the 2000 ms tick reads
FirstPressAndFirstRelease. -/
def staleObsSeq : Nat → ButtonState := fun n =>
  if n = 1 then .firstPressAwaitingRelease
  else if n = 2 then .secondPressAwaitingRelease
  else .firstPressAndFirstRelease

/-- C3: the claim says message parsing is total and never panics, with
unknown button or action ids, invalid integers, and too few fields all
yielding a parse error. The code contradicts this: Message::from_str reaches
expect calls and a direct index, so those inputs panic. This theorem
evaluates the embedded from_str: an unknown button id panics, a short line
panics, a non-integer field panics, an unknown action id panics, while valid
lines parse and an unrecognized prefix is the only ordinary Err. -/
theorem C3_from_str_panics_on_invalid_fields :
    Message.fromStr "~DEVICE,7,99,3\r\n" = .panicked "got an invalid button ID" ∧
    Message.fromStr "~DEVICE,7,2\r\n" = .panicked "index out of bounds" ∧
    Message.fromStr "~DEVICE,7,abc,3\r\n" =
      .panicked "only integer values are allowed here, but got abc" ∧
    Message.fromStr "~DEVICE,7,2,9\r\n" = .panicked "got an invalid button action ID" ∧
    Message.fromStr "~DEVICE,2,2,3\r\n" = .ok (.buttonEvent 2 .powerOn .press) ∧
    Message.fromStr "~DEVICE,7,5,4\r\n" = .ok (.buttonEvent 7 .up .release) ∧
    Message.fromStr "GNET> " = .ok .loggedIn ∧
    Message.fromStr "login: " = .ok .loginPrompt ∧
    Message.fromStr "password: " = .ok .passwordPrompt ∧
    Message.fromStr "hello" = .err "got an un-parseable message: hello" := by
  refine ⟨?_, ?_, ?_, ?_, ?_, ?_, ?_, ?_, ?_, ?_⟩ <;> rfl

/-- C4: the ingest transition function is deterministic and matches the
section 4.3 table: RemoteHistory.increment computes exactly
ingestSpecTable on the gesture state and changes nothing else. -/
theorem C4_ingest_transition_matches_table :
    ∀ (h : RemoteHistory) (b : ButtonId) (a : ButtonAction),
      (h.increment b a).button_state = ingestSpecTable h.button_id h.button_state b a ∧
      (h.increment b a).button_id = h.button_id ∧
      (h.increment b a).finished = h.finished := by
  rintro ⟨B, st, f⟩ b a
  by_cases hb : b = B
  · subst hb
    rcases st with _ | s
    · cases a <;> simp [RemoteHistory.increment, ingestSpecTable]
    · cases s <;> cases a <;>
        simp [RemoteHistory.increment, ingestSpecTable, ButtonState.nextButtonState]
  · rcases st with _ | s
    · cases a <;> simp [RemoteHistory.increment, ingestSpecTable, hb]
    · cases s <;> cases a <;> simp [RemoteHistory.increment, ingestSpecTable, hb]

/-- Helper: the fuelled polling loop always returns before the fuel runs out
when started so that iteration 9 (the 5000 ms tick) is covered, and the time
at which it returns is at most 5000 ms. -/
theorem watcherLoopAux_some (obs : Nat → ButtonState) :
    ∀ (fuel n : Nat) (stale : Option DeviceAction) (acc : List (Nat × DeviceAction)),
      fuel + n = 10 → 1 ≤ fuel →
      ∃ r, watcherLoopAux obs fuel n stale acc = some r ∧ r.2 ≤ 5000 := by
  intro fuel
  induction fuel with
  | zero => intro n stale acc hsum h1; omega
  | succ f ih =>
    intro n stale acc hsum _
    by_cases hfin : isFinishedFlag (loopTickEval stale (obs n)).2 (500 * (n + 1)) = true
    · refine ⟨(appendEmission acc (500 * (n + 1)) (loopTickEval stale (obs n)).1, 500 * (n + 1)),
        ?_, ?_⟩
      · simp [watcherLoopAux, hfin]
      · simp only []
        omega
    · have hlt : ¬ (5000 ≤ 500 * (n + 1)) := by
        intro hge
        exact hfin (by simp [isFinishedFlag, hge])
      have hf1 : 1 ≤ f := by omega
      obtain ⟨r, hr, hr2⟩ := ih (n + 1)
        (loopTickEval stale (obs n)).1
        (appendEmission acc (500 * (n + 1)) (loopTickEval stale (obs n)).1)
        (by omega) hf1
      refine ⟨r, ?_, hr2⟩
      rw [watcherLoopAux]
      simp [hfin, hr]

/-- C6: the claim says a polling tick that observes SecondPressAwaitingRelease
emits nothing. The code contradicts this (and its own comment at that branch):
device_action_message is never reset inside the loop, so such a tick re-sends
whatever the previous tick put there. In this run the first pass observes
FirstPressAwaitingRelease (no emission), the 1000 ms tick observes
FirstPressAwaitingRelease and emits LongPressOngoing, the 1500 ms tick
observes SecondPressAwaitingRelease and re-sends the stale LongPressOngoing,
and the 2000 ms tick observes FirstPressAndFirstRelease, emits
LongPressComplete and finishes: two LongPressOngoing emissions although only
one tick observed the long-press state. -/
theorem C6_stale_long_press_ongoing_resent :
    watcherRun (some .firstPressAwaitingRelease) staleObsSeq =
      some ([(1000, .longPressOngoing), (1500, .longPressOngoing),
             (2000, .longPressComplete)], 2000) := by
  rfl

/-- C7: every recognizer run returns, at a tick no later than 5000 ms after
tracking started, because is_finished is true as soon as 5000 ms have
elapsed; the first conjunct shows the polling loop (fuel 9 covers every tick
up to the deadline) always produces a result with exit time at most 5000 ms,
for every sequence of observed states, and the second shows
RemoteHistory.isFinished is true whenever 5000 ms have elapsed. -/
theorem C7_recognizer_finishes_within_deadline :
    ∀ (obs0 : Option ButtonState) (obs : Nat → ButtonState),
      (∃ r, watcherRun obs0 obs = some r ∧ r.2 ≤ 5000) ∧
      (∀ (h : RemoteHistory) (t : Nat), 5000 ≤ t → h.isFinished t = true) := by
  intro obs0 obs
  refine ⟨?_, ?_⟩
  · unfold watcherRun
    by_cases hfin : isFinishedFlag (firstPassEval obs0).2 500 = true
    · exact ⟨(appendEmission [] 500 (firstPassEval obs0).1, 500), by simp [hfin], by norm_num⟩
    · rw [if_neg hfin]
      exact watcherLoopAux_some obs 9 1 (firstPassEval obs0).1
        (appendEmission [] 500 (firstPassEval obs0).1) rfl (by norm_num)
  · intro h t ht
    simp [RemoteHistory.isFinished, isFinishedFlag, ht]

/-- Witness for C7: the deadline theorem applied to a concrete run in which
every tick observes a still-held button, and to a concrete history at
exactly 5000 ms of elapsed tracking time. -/
theorem C7_recognizer_deadline_witness :
    (∃ r, watcherRun (some .firstPressAwaitingRelease)
        (fun _ => .firstPressAwaitingRelease) = some r ∧ r.2 ≤ 5000) ∧
    RemoteHistory.isFinished ⟨.powerOn, none, false⟩ 5000 = true :=
  ⟨(C7_recognizer_finishes_within_deadline (some .firstPressAwaitingRelease)
      (fun _ => .firstPressAwaitingRelease)).1,
   (C7_recognizer_finishes_within_deadline (some .firstPressAwaitingRelease)
      (fun _ => .firstPressAwaitingRelease)).2 ⟨.powerOn, none, false⟩ 5000 (by decide)⟩

/-- Helper: rustTruncQ agrees with the floor on nonnegative rationals. -/
theorem rustTruncQ_of_nonneg (q : ℚ) (h : 0 ≤ q) : rustTruncQ q = (⌊q⌋ : ℚ) := if_pos h

/-- Helper: the upward step on a nonnegative value, with the constants and
the trunc unfolded. -/
theorem higher_eval (v : ℚ) (hv : 0 ≤ v) :
    getBoundedNextHigherBrightnessVal v = min 100 (5 * ((⌊v / 5⌋ : ℚ) + 1)) := by
  have h5 : (0:ℚ) ≤ v / 5 := div_nonneg hv (by norm_num)
  simp only [getBoundedNextHigherBrightnessVal, BRIGHTNESS_UPDATE_AMOUNT,
    MAXIMUM_BRIGHTNESS_PERCENT, rustTruncQ_of_nonneg _ h5]

/-- Helper: the downward step on a nonnegative value, with the constants and
the trunc unfolded. -/
theorem lower_eval (v : ℚ) (hv : 0 ≤ v) :
    getBoundedNextLowerBrightnessVal v = max 1 (5 * ((⌊v / 5⌋ : ℚ) - 1)) := by
  have h5 : (0:ℚ) ≤ v / 5 := div_nonneg hv (by norm_num)
  simp only [getBoundedNextLowerBrightnessVal, BRIGHTNESS_UPDATE_AMOUNT,
    MINIMUM_BRIGHTNESS_PERCENT, rustTruncQ_of_nonneg _ h5]

/-- Helper: the upward step at an exact nonnegative multiple of five. -/
theorem higher_at_mul5 (m : ℤ) (hm : 0 ≤ m) :
    getBoundedNextHigherBrightnessVal (5 * (m:ℚ)) = min 100 (5 * ((m:ℚ) + 1)) := by
  have h0 : (0:ℚ) ≤ 5 * (m:ℚ) := by positivity
  rw [higher_eval _ h0]
  rw [mul_div_cancel_left₀ _ (by norm_num : (5:ℚ) ≠ 0), Int.floor_intCast]

/-- Helper: the downward step at an exact nonnegative multiple of five. -/
theorem lower_at_mul5 (m : ℤ) (hm : 0 ≤ m) :
    getBoundedNextLowerBrightnessVal (5 * (m:ℚ)) = max 1 (5 * ((m:ℚ) - 1)) := by
  have h0 : (0:ℚ) ≤ 5 * (m:ℚ) := by positivity
  rw [lower_eval _ h0]
  rw [mul_div_cancel_left₀ _ (by norm_num : (5:ℚ) ≠ 0), Int.floor_intCast]

/-- C5: for brightness values in the interval from 1 to 100, both step
functions equal the spec clamp formula, stay within the bounds, land on a
multiple of 5 whenever the result is strictly inside the bounds, and the two
directions are mutual inverses on multiples of 5 away from the boundaries. -/
theorem C5_brightness_step_properties :
    ∀ v : ℚ, 1 ≤ v → v ≤ 100 →
      (getBoundedNextHigherBrightnessVal v =
          clampQ MINIMUM_BRIGHTNESS_PERCENT MAXIMUM_BRIGHTNESS_PERCENT
            (BRIGHTNESS_UPDATE_AMOUNT * (rustTruncQ (v / BRIGHTNESS_UPDATE_AMOUNT) + 1)) ∧
        getBoundedNextLowerBrightnessVal v =
          clampQ MINIMUM_BRIGHTNESS_PERCENT MAXIMUM_BRIGHTNESS_PERCENT
            (BRIGHTNESS_UPDATE_AMOUNT * (rustTruncQ (v / BRIGHTNESS_UPDATE_AMOUNT) - 1))) ∧
      (1 ≤ getBoundedNextHigherBrightnessVal v ∧ getBoundedNextHigherBrightnessVal v ≤ 100 ∧
        1 ≤ getBoundedNextLowerBrightnessVal v ∧ getBoundedNextLowerBrightnessVal v ≤ 100) ∧
      ((getBoundedNextHigherBrightnessVal v < 100 →
          ∃ k : ℤ, getBoundedNextHigherBrightnessVal v = 5 * (k:ℚ)) ∧
        (1 < getBoundedNextLowerBrightnessVal v →
          ∃ k : ℤ, getBoundedNextLowerBrightnessVal v = 5 * (k:ℚ))) ∧
      (∀ k : ℤ, v = 5 * (k:ℚ) → 10 ≤ v → v ≤ 95 →
        getBoundedNextLowerBrightnessVal (getBoundedNextHigherBrightnessVal v) = v ∧
        getBoundedNextHigherBrightnessVal (getBoundedNextLowerBrightnessVal v) = v) := by
  intro v h1 h100
  have hv0 : (0:ℚ) ≤ v := le_trans zero_le_one h1
  have hv5 : (0:ℚ) ≤ v / 5 := div_nonneg hv0 (by norm_num)
  have hq0 : (0:ℚ) ≤ (⌊v / 5⌋ : ℚ) := by
    exact_mod_cast Int.floor_nonneg.mpr hv5
  have hq20 : (⌊v / 5⌋ : ℚ) ≤ 20 := le_trans (Int.floor_le _) (by linarith)
  have hup := higher_eval v hv0
  have hdn := lower_eval v hv0
  have h5min : (1:ℚ) ≤ min 100 (5 * ((⌊v / 5⌋ : ℚ) + 1)) := le_min (by norm_num) (by linarith)
  have h95 : 5 * ((⌊v / 5⌋ : ℚ) - 1) ≤ 95 := by linarith
  refine ⟨⟨?_, ?_⟩, ⟨?_, ?_, ?_, ?_⟩, ⟨?_, ?_⟩, ?_⟩
  · simp only [clampQ, MINIMUM_BRIGHTNESS_PERCENT, MAXIMUM_BRIGHTNESS_PERCENT,
      BRIGHTNESS_UPDATE_AMOUNT, rustTruncQ_of_nonneg _ hv5, hup]
    exact (max_eq_right h5min).symm
  · simp only [clampQ, MINIMUM_BRIGHTNESS_PERCENT, MAXIMUM_BRIGHTNESS_PERCENT,
      BRIGHTNESS_UPDATE_AMOUNT, rustTruncQ_of_nonneg _ hv5, hdn]
    rw [min_eq_right (by linarith : 5 * ((⌊v / 5⌋ : ℚ) - 1) ≤ 100)]
  · rw [hup]; exact h5min
  · rw [hup]; exact min_le_left _ _
  · rw [hdn]; exact le_max_left _ _
  · rw [hdn]; exact max_le (by norm_num) (by linarith)
  · rw [hup]
    intro hlt
    rcases le_or_lt 100 (5 * ((⌊v / 5⌋ : ℚ) + 1)) with hc | hc
    · rw [min_eq_left hc] at hlt; norm_num at hlt
    · refine ⟨⌊v / 5⌋ + 1, ?_⟩
      rw [min_eq_right (le_of_lt hc)]
      push_cast
      ring
  · rw [hdn]
    intro hlt
    rcases le_or_lt (5 * ((⌊v / 5⌋ : ℚ) - 1)) 1 with hc | hc
    · rw [max_eq_left hc] at hlt; norm_num at hlt
    · refine ⟨⌊v / 5⌋ - 1, ?_⟩
      rw [max_eq_right (le_of_lt hc)]
      push_cast
      ring
  · intro k hk h10 h95v
    have hk2 : (2:ℚ) ≤ (k:ℚ) := by linarith [hk ▸ h10]
    have hk19 : (k:ℚ) ≤ 19 := by nlinarith [hk ▸ h95v]
    have hk2z : (2:ℤ) ≤ k := by exact_mod_cast hk2
    have hk19z : k ≤ (19:ℤ) := by exact_mod_cast hk19
    have hk0 : 0 ≤ k := by omega
    have hupv : getBoundedNextHigherBrightnessVal v = 5 * (((k + 1 : ℤ)):ℚ) := by
      rw [hk, higher_at_mul5 k hk0, min_eq_right (by linarith)]
      push_cast; ring
    have hdnv : getBoundedNextLowerBrightnessVal v = 5 * (((k - 1 : ℤ)):ℚ) := by
      rw [hk, lower_at_mul5 k hk0, max_eq_right (by linarith)]
      push_cast; ring
    constructor
    · rw [hupv, lower_at_mul5 (k + 1) (by omega),
        max_eq_right (by push_cast; linarith), hk]
      push_cast; ring
    · rw [hdnv, higher_at_mul5 (k - 1) (by omega),
        min_eq_right (by push_cast; linarith), hk]
      push_cast; ring

/-- Witness for C5: the step theorem applied at the concrete brightness 42.3
of spec scenario S1, giving the in-bounds conclusions there. -/
theorem C5_brightness_step_witness :
    (1:ℚ) ≤ 423/10 ∧ (423:ℚ)/10 ≤ 100 ∧
      (1 ≤ getBoundedNextHigherBrightnessVal (423/10) ∧
        getBoundedNextHigherBrightnessVal (423/10) ≤ 100 ∧
        1 ≤ getBoundedNextLowerBrightnessVal (423/10) ∧
        getBoundedNextLowerBrightnessVal (423/10) ≤ 100) :=
  ⟨by norm_num, by norm_num,
    (C5_brightness_step_properties (423/10) (by norm_num) (by norm_num)).2.1⟩

/-- Helper: the update_brightness tail either leaves the cache untouched or
returned Ok. -/
theorem finishBrightness_cache_or_ok (o : HueOracle) (cache : Cache) (room : Room)
    (st : CurrentRoomState) (t : ℚ) (calls : List HueCall) :
    (finishBrightnessUpdate o cache room st t calls).cache = cache ∨
      (finishBrightnessUpdate o cache room st t calls).result = .ok () := by
  unfold finishBrightnessUpdate
  repeat' split
  all_goals simp

/-- Helper: the scene recall tail either leaves the cache untouched or
returned Ok. -/
theorem recallAndCache_cache_or_ok (o : HueOracle) (cache : Cache) (room : Room)
    (st : CurrentRoomState) (b : ℚ) (target : Scene) (calls : List HueCall) :
    (recallAndCache o cache room st b target calls).cache = cache ∨
      (recallAndCache o cache room st b target calls).result = .ok () := by
  unfold recallAndCache
  repeat' split
  all_goals simp

/-- Helper: the brightness handler either leaves the cache untouched or
returned Ok. -/
theorem handleBrightness_cache_or_ok (o : HueOracle) (cache : Cache) (room : Room)
    (st : CurrentRoomState) (m : DeviceActionMessage) (f : ℚ → ℚ) (calls : List HueCall) :
    (handleBrightnessChangeButtonPress o cache room st m f calls).cache = cache ∨
      (handleBrightnessChangeButtonPress o cache room st m f calls).result = .ok () := by
  unfold handleBrightnessChangeButtonPress
  repeat' split
  all_goals first
    | exact finishBrightness_cache_or_ok _ _ _ _ _ _
    | simp

/-- Helper: the power-on handler either leaves the cache untouched or
returned Ok. -/
theorem handlePowerOn_cache_or_ok (o : HueOracle) (topo : Topology) (cache : Cache)
    (m : DeviceActionMessage) :
    (handlePowerOnButtonPress o topo cache m).cache = cache ∨
      (handlePowerOnButtonPress o topo cache m).result = .ok () := by
  unfold handlePowerOnButtonPress
  repeat' split
  all_goals simp

/-- Helper: the power-off handler either leaves the cache untouched or
returned Ok. -/
theorem handlePowerOff_cache_or_ok (o : HueOracle) (topo : Topology) (cache : Cache)
    (m : DeviceActionMessage) :
    (handlePowerOffButtonPress o topo cache m).cache = cache ∨
      (handlePowerOffButtonPress o topo cache m).result = .ok () := by
  unfold handlePowerOffButtonPress
  repeat' split
  all_goals simp

/-- Helper: the up handler either leaves the cache untouched or returned Ok. -/
theorem handleUp_cache_or_ok (o : HueOracle) (topo : Topology) (cache : Cache)
    (m : DeviceActionMessage) :
    (handleUpButtonPress o topo cache m).cache = cache ∨
      (handleUpButtonPress o topo cache m).result = .ok () := by
  unfold handleUpButtonPress
  repeat' split
  all_goals first
    | exact handleBrightness_cache_or_ok _ _ _ _ _ _ _
    | simp

/-- Helper: the down handler either leaves the cache untouched or returned Ok. -/
theorem handleDown_cache_or_ok (o : HueOracle) (topo : Topology) (cache : Cache)
    (m : DeviceActionMessage) :
    (handleDownButtonPress o topo cache m).cache = cache ∨
      (handleDownButtonPress o topo cache m).result = .ok () := by
  unfold handleDownButtonPress
  repeat' split
  all_goals first
    | exact handleBrightness_cache_or_ok _ _ _ _ _ _ _
    | simp

/-- Helper: the favorite handler either leaves the cache untouched or
returned Ok. -/
theorem handleFavorite_cache_or_ok (o : HueOracle) (topo : Topology) (cache : Cache)
    (m : DeviceActionMessage) :
    (handleFavoriteButtonPress o topo cache m).cache = cache ∨
      (handleFavoriteButtonPress o topo cache m).result = .ok () := by
  unfold handleFavoriteButtonPress
  repeat' split
  all_goals first
    | exact recallAndCache_cache_or_ok _ _ _ _ _ _ _
    | simp

/-- C10: handling a message whose HTTP call fails (its result is an error)
leaves the room-state cache exactly as it was; every handler reads the
current state without writing, and writes only through cache_current_state
after its lighting mutation returned Ok. -/
theorem C10_error_leaves_cache_unchanged :
    ∀ (o : HueOracle) (topo : Topology) (cache : Cache) (m : DeviceActionMessage) (e : String),
      (handleMessage o topo cache m).result = .error e →
      (handleMessage o topo cache m).cache = cache := by
  intro o topo cache m e herr
  rcases m with ⟨a, r, b⟩
  cases b
  case powerOn =>
    simp only [handleMessage] at herr ⊢
    rcases handlePowerOn_cache_or_ok o topo cache ⟨a, r, .powerOn⟩ with hc | hok
    · exact hc
    · rw [hok] at herr; exact absurd herr (by simp)
  case up =>
    simp only [handleMessage] at herr ⊢
    rcases handleUp_cache_or_ok o topo cache ⟨a, r, .up⟩ with hc | hok
    · exact hc
    · rw [hok] at herr; exact absurd herr (by simp)
  case favorite =>
    simp only [handleMessage] at herr ⊢
    rcases handleFavorite_cache_or_ok o topo cache ⟨a, r, .favorite⟩ with hc | hok
    · exact hc
    · rw [hok] at herr; exact absurd herr (by simp)
  case down =>
    simp only [handleMessage] at herr ⊢
    rcases handleDown_cache_or_ok o topo cache ⟨a, r, .down⟩ with hc | hok
    · exact hc
    · rw [hok] at herr; exact absurd herr (by simp)
  case powerOff =>
    simp only [handleMessage] at herr ⊢
    rcases handlePowerOff_cache_or_ok o topo cache ⟨a, r, .powerOff⟩ with hc | hok
    · exact hc
    · rw [hok] at herr; exact absurd herr (by simp)

/-- Witness for C10: with an oracle whose calls all fail, a power-off single
press errors and the cache is exactly the input cache. -/
theorem C10_error_cache_witness :
    (handleMessage failingOracle sampleTopology cacheWithPrior powerOffSingleMsg).result =
        .error "http 500" ∧
      (handleMessage failingOracle sampleTopology cacheWithPrior powerOffSingleMsg).cache =
        cacheWithPrior :=
  ⟨rfl, C10_error_leaves_cache_unchanged failingOracle sampleTopology cacheWithPrior
      powerOffSingleMsg "http 500" rfl⟩

/-- C1 amended: on a PowerOff terminal gesture the dispatcher calls turn_off
and caches the prior state with only the on flag cleared — the brightness and
the scene are both unchanged from the prior state (the claim said the
brightness becomes absent); LongPressStart and LongPressOngoing make no call
and leave the cache unchanged. -/
theorem C1_power_off_keeps_prior_brightness :
    ∀ (o : HueOracle) (topo : Topology) (cache : Cache) (m : DeviceActionMessage)
      (i : RemoteId) (nm : String) (room : Room) (prior : CurrentRoomState),
      m.button_id = .powerOff →
      topologyGet topo m.remote_id = some (.fiveButtonPico i nm, room) →
      cacheGet cache room.room_id = some prior →
      o.turnOff room.grouped_light_room_id = .ok () →
      ((m.device_action = .singlePressComplete ∨ m.device_action = .doublePressComplete ∨
          m.device_action = .longPressComplete) →
        handlePowerOffButtonPress o topo cache m =
          ⟨.ok (), cacheInsert cache room.room_id ⟨prior.scene, prior.brightness, false⟩,
            [.turnOff room.grouped_light_room_id]⟩) ∧
      ((m.device_action = .longPressStart ∨ m.device_action = .longPressOngoing) →
        handlePowerOffButtonPress o topo cache m = ⟨.ok (), cache, []⟩) := by
  intro o topo cache m i nm room prior hbtn htopo hcache hoff
  constructor
  · intro hact
    rcases hact with h | h | h <;>
      simp [handlePowerOffButtonPress, hbtn, htopo, getCurrentState, hcache, hoff, h]
  · intro hact
    rcases hact with h | h <;>
      simp [handlePowerOffButtonPress, hbtn, htopo, getCurrentState, hcache, hoff, h]

/-- Counterexample for C1 as stated: after a PowerOff single press on a room
cached on at brightness 50, the new cache entry still has brightness 50 —
not absent as the claim requires — while turn_off was called. -/
theorem C1_power_off_brightness_counterexample :
    (cacheGet (handlePowerOffButtonPress happyOracle sampleTopology cacheWithPrior
        powerOffSingleMsg).cache 100).map CurrentRoomState.brightness = some (some 50) ∧
      (handlePowerOffButtonPress happyOracle sampleTopology cacheWithPrior
        powerOffSingleMsg).calls = [.turnOff 200] ∧
      some (50:ℚ) ≠ (none : Option ℚ) :=
  ⟨rfl, rfl, by simp⟩

/-- Witness for C1: the amended power-off theorem applied to the concrete
room, cache and oracle, for a terminal gesture and a long-press start. -/
theorem C1_power_off_witness :
    handlePowerOffButtonPress happyOracle sampleTopology cacheWithPrior powerOffSingleMsg =
      ⟨.ok (), cacheInsert cacheWithPrior 100 ⟨some sampleSceneA, some 50, false⟩,
        [.turnOff 200]⟩ ∧
    handlePowerOffButtonPress happyOracle sampleTopology cacheWithPrior powerOffLongStartMsg =
      ⟨.ok (), cacheWithPrior, []⟩ :=
  ⟨(C1_power_off_keeps_prior_brightness happyOracle sampleTopology cacheWithPrior
      powerOffSingleMsg 7 "living room pico" sampleRoom priorOnState rfl rfl rfl rfl).1
      (Or.inl rfl),
   (C1_power_off_keeps_prior_brightness happyOracle sampleTopology cacheWithPrior
      powerOffLongStartMsg 7 "living room pico" sampleRoom priorOnState rfl rfl rfl rfl).2
      (Or.inl rfl)⟩

/-- C2: the claim says the double-press target index is (i - 1) mod N with
the Euclidean modulo, so index 2 for i = 0, N = 3. The code computes
(position - 1) on usize: for position 0 a release build wraps to 2 ^ 64 - 1
before taking the modulus (a debug build panics), giving index 0 for N = 3 —
the double press on the three-scene room recalls scene_a (device 11) again
instead of scene_c. For N = 2 the wrap happens to coincide with the
Euclidean answer, which is why the two-scene spec scenario looks right. -/
theorem C2_previous_scene_wraps_not_euclidean :
    getPreviousSceneIndex 0 3 = 0 ∧
    specPreviousSceneIndex 0 3 = 2 ∧
    getPreviousSceneIndex 0 2 = 1 ∧
    getPreviousScene threeSceneRoom sampleSceneA = .ok sampleSceneA ∧
    (handleFavoriteButtonPress happyOracle sampleTopology cacheThreeScene
        favoriteDoubleDenMsg).calls = [.recallScene 11 70] ∧
    threeSceneRoom.scenes.get? (specPreviousSceneIndex 0 3) = some sampleSceneC ∧
    sampleSceneA ≠ sampleSceneC :=
  ⟨rfl, rfl, rfl, rfl, rfl, rfl, by decide⟩

/-- Helper: when every recall_scene call succeeds the recall loop returns Ok
and issues exactly one call per HueScene device, in order. -/
theorem recallSceneDevices_all_ok (o : HueOracle) (b : ℚ)
    (hok : ∀ id bb, o.recallScene id bb = .ok ()) :
    ∀ ds : List Device,
      recallSceneDevices o b ds = (.ok (), (Scene.mk "" ds |> (sceneRecallCalls · b))) := by
  intro ds
  induction ds with
  | nil => rfl
  | cons d rest ih =>
    cases d with
    | hueScene id nm =>
      simp [recallSceneDevices, hok id b, ih, sceneRecallCalls]
    | nanoleafLightPanels nm o2 eff =>
      simp [recallSceneDevices, ih, sceneRecallCalls]
    | wemoOutlet nm o2 =>
      simp [recallSceneDevices, ih, sceneRecallCalls]

/-- C8 amended: when the cached state is on with no active scene, the
favorite handler recalls the FIRST scene of the room (index 0) on a single
press — not the scene at index (0 + 1) mod N that the claim states — and
caches it as the active scene. -/
theorem C8_no_active_scene_recalls_first :
    ∀ (o : HueOracle) (topo : Topology) (cache : Cache) (m : DeviceActionMessage)
      (i : RemoteId) (nm : String) (room : Room) (st : CurrentRoomState) (b : ℚ)
      (target : Scene),
      m.button_id = .favorite →
      m.device_action = .singlePressComplete →
      topologyGet topo m.remote_id = some (.fiveButtonPico i nm, room) →
      cacheGet cache room.room_id = some st →
      st.«on» = true → st.scene = none → st.brightness = some b →
      room.scenes.head? = some target →
      (∀ id bb, o.recallScene id bb = .ok ()) →
      handleFavoriteButtonPress o topo cache m =
        ⟨.ok (), cacheInsert cache room.room_id ⟨some target, some b, true⟩,
          sceneRecallCalls target b⟩ := by
  intro o topo cache m i nm room st b target hbtn hact htopo hcache hon hscene hbr hhead hok
  have hrecall := recallSceneDevices_all_ok o b hok target.devices
  simp [handleFavoriteButtonPress, hbtn, htopo, getCurrentState, hcache, hon, hscene, hbr,
    getFirstScene, hhead, recallAndCache, hrecall, sceneRecallCalls]

/-- Counterexample for C8 as stated: on the two-scene room with no active
scene, a favorite single press recalls scene_a (device 11) and caches it,
while the claim requires the scene at index (0 + 1) mod 2, which is scene_b. -/
theorem C8_single_press_counterexample :
    (handleFavoriteButtonPress happyOracle sampleTopology cacheNoScene favoriteSingleMsg).calls =
        [.recallScene 11 70] ∧
      (cacheGet (handleFavoriteButtonPress happyOracle sampleTopology cacheNoScene
        favoriteSingleMsg).cache 100).map CurrentRoomState.scene = some (some sampleSceneA) ∧
      sampleRoom.scenes.get? ((0 + 1) % sampleRoom.scenes.length) = some sampleSceneB ∧
      sampleSceneA ≠ sampleSceneB :=
  ⟨rfl, rfl, rfl, by decide⟩

/-- Witness for C8: the amended theorem applied to the two-scene room with
no active scene in the cache. -/
theorem C8_no_active_scene_witness :
    handleFavoriteButtonPress happyOracle sampleTopology cacheNoScene favoriteSingleMsg =
      ⟨.ok (), cacheInsert cacheNoScene 100 ⟨some sampleSceneA, some 70, true⟩,
        sceneRecallCalls sampleSceneA 70⟩ :=
  C8_no_active_scene_recalls_first happyOracle sampleTopology cacheNoScene favoriteSingleMsg
    7 "living room pico" sampleRoom noSceneOnState 70 sampleSceneA
    rfl rfl rfl rfl rfl rfl rfl rfl (fun _ _ => rfl)

/-- C9 amended: after the handshake the delegating connection manager
surfaces every successfully parsed frame to its caller unchanged — LoggedIn
keep-alive replies included; nothing inside the connection manager consumes
or filters them (the router is the one logging them as unexpected). -/
theorem C9_await_message_passes_logged_in_through :
    (∀ m : Message, delegatingAwaitMessage (.ok (some m)) = (.ok (some m), true)) ∧
    (∀ (s : String) (m : Message), Message.fromStr s = .ok m →
      readFrame (some s) = .result (.ok (some m))) := by
  constructor
  · intro m; rfl
  · intro s m hparse
    by_cases h0 : s.length = 0
    · have hdata : s.data = [] := List.length_eq_zero.mp h0
      have hs : s = "" := by
        cases s
        simp_all
      rw [hs] at hparse
      have hempty : Message.fromStr "" = .err "got an un-parseable message: " := rfl
      rw [hempty] at hparse
      simp at hparse
    · simp [readFrame, h0, hparse]

/-- Counterexample for C9 as stated: a GNET prompt line read after the
handshake parses to LoggedIn and await_message returns it to the caller,
keeping the connection — it is not consumed inside the connection manager. -/
theorem C9_logged_in_surfaced_counterexample :
    readFrame (some "GNET> ") = .result (.ok (some .loggedIn)) ∧
      delegatingAwaitMessage (.ok (some .loggedIn)) = (.ok (some .loggedIn), true) :=
  ⟨rfl, rfl⟩

/-- Witness for C9: the amended pass-through theorem applied to the concrete
GNET prompt line and the LoggedIn message. -/
theorem C9_logged_in_witness :
    delegatingAwaitMessage (.ok (some .loggedIn)) = (.ok (some .loggedIn), true) ∧
      readFrame (some "GNET> ") = .result (.ok (some .loggedIn)) :=
  ⟨C9_await_message_passes_logged_in_through.1 .loggedIn,
   C9_await_message_passes_logged_in_through.2 "GNET> " .loggedIn rfl⟩

end CasetaListener
